import Mathlib

/-!
Verification development for the transaction admission / fee-estimation core
(`core/lib/zksync_core/src/api_server/tx_sender/mod.rs`) and the L1-batch
status reconciliation loop
(`core/lib/zksync_core/src/sync_layer/batch_status_updater/mod.rs`).

The sandboxed VM, storage layer, gas-price oracle, seal predicate and the
`multivm` helper functions (`derive_base_fee_and_gas_per_pubdata`,
`adjust_l1_gas_price_for_tx`, `derive_overhead`) are external to the supplied
sources; they appear here as parameters (oracles) of the embedded functions.
Machine integers (`u32`, `u64`, `U256`) are modelled as `Nat`, with explicit
bounds where 32-bit overflow behaviour matters.  The `f64` scale factors are
modelled as non-negative rationals: the Rust `as u64` / `as u32` cast of a
non-negative float is truncation towards zero (floor), and `f64::round`
rounds half away from zero, which on non-negative values coincides with
Mathlib's `round`.
-/

namespace ZkSyncCore

/-- `u32::MAX`, the bound used by `validate_tx` for `gas_limit` and
`gas_per_pubdata_limit`. -/
def U32_MAX : Nat := 4294967295

/-- `MAX_L2_TX_GAS_LIMIT` from `zksync_types` (used as `u32` in the binary
search bounds). -/
def MAX_L2_TX_GAS_LIMIT : Nat := 80000000

/-- `MAX_NEW_FACTORY_DEPS` from `zksync_types`. -/
def MAX_NEW_FACTORY_DEPS : Nat := 32

/-- The fee block of an L2 transaction (`tx.common_data.fee`); all four
fields are `U256` in the source, modelled as `Nat`. -/
structure TxFee where
  gasLimit : Nat
  maxFeePerGas : Nat
  maxPriorityFeePerGas : Nat
  gasPerPubdataLimit : Nat
deriving Repr, DecidableEq

/-- The parts of an `L2Tx` consumed by the fast validation stage
(`validate_tx`, `validate_account_nonce`, `validate_enough_balance`).
`paymaster = 0` encodes `Address::default()` (no paymaster). -/
structure L2TxModel where
  nonce : Nat
  fee : TxFee
  initiator : Nat
  paymaster : Nat
  value : Nat
  factoryDepsLength : Nat
deriving Repr, DecidableEq

/-- The error taxonomy of `SubmitTxError` (variants used by the embedded
functions; payloads follow the source constructors). -/
inductive SubmitTxError where
  | GasLimitIsTooBig
  | MaxFeePerGasTooLow
  | MaxPriorityFeeGreaterThanMaxFee
  | TooManyFactoryDependencies (got : Nat) (max : Nat)
  | IntrinsicGas
  | NonceIsTooLow (expected : Nat) (max : Nat) (given : Nat)
  | NonceIsTooHigh (expected : Nat) (max : Nat) (given : Nat)
  | NotEnoughBalanceForFeeValue (balance : Nat) (maxFee : Nat) (value : Nat)
  | InsufficientFundsForTransfer
  | Unexecutable (reason : String)
  | FailedToPublishCompressedBytecodes
  | ExecutionReverted (message : String) (data : List Nat)
  | ServerShuttingDown
deriving Repr, DecidableEq

/-- The fields of `TxSenderConfig` consumed by the validation stage. -/
structure TxSenderConfig where
  maxAllowedL2TxGasLimit : Nat
  fairL2GasPrice : Nat
  maxNonceAhead : Nat
deriving Repr, DecidableEq

/-- Storage reads consumed by the nonce and balance checks, for a fixed
replica snapshot: the latest sealed miniblock number (if any), the projected
first miniblock, the historical nonce oracle and the ETH balance oracle. -/
structure StorageModel where
  sealedMiniblockNumber : Option Nat
  projectedFirstMiniblock : Nat
  nonceAt : Nat → Nat → Nat
  balanceOf : Nat → Nat

/-- The miniblock number at which `get_expected_nonce` reads the nonce:
the latest sealed miniblock, or `projected_first_miniblock.saturating_sub(1)`
when no miniblocks exist (Nat subtraction is saturating). -/
def latestNonceBlock (s : StorageModel) : Nat :=
  match s.sealedMiniblockNumber with
  | some number => number
  | none => s.projectedFirstMiniblock - 1

/-- `TxSender::get_expected_nonce`: reads the historical nonce of the
initiator at `latestNonceBlock` and converts it to `u32`
(`u32::try_from`, failing when it does not fit). -/
def getExpectedNonce (s : StorageModel) (initiator : Nat) : Option Nat :=
  let nonce := s.nonceAt initiator (latestNonceBlock s)
  if nonce ≤ U32_MAX then some nonce else none

/-- `TxSender::validate_account_nonce`, given the unwrapped expected nonce. -/
def validateAccountNonce (cfg : TxSenderConfig) (tx : L2TxModel)
    (expectedNonce : Nat) : Except SubmitTxError Unit :=
  if tx.nonce < expectedNonce then
    .error (.NonceIsTooLow expectedNonce (expectedNonce + cfg.maxNonceAhead) tx.nonce)
  else
    let maxNonce := expectedNonce + cfg.maxNonceAhead
    if ¬ (expectedNonce ≤ tx.nonce ∧ tx.nonce ≤ maxNonce) then
      .error (.NonceIsTooHigh expectedNonce maxNonce tx.nonce)
    else
      .ok ()

/-- `TxSender::validate_enough_balance`: skipped entirely when a paymaster is
set; otherwise rejects when the balance is below
`gas_limit * min(max_fee_per_gas, fair_l2_gas_price + max_priority_fee_per_gas)
 + value`. -/
def validateEnoughBalance (cfg : TxSenderConfig) (tx : L2TxModel)
    (balance : Nat) : Except SubmitTxError Unit :=
  if tx.paymaster ≠ 0 then
    .ok ()
  else
    let gasPrice := min tx.fee.maxFeePerGas
      (cfg.fairL2GasPrice + tx.fee.maxPriorityFeePerGas)
    let maxFee := tx.fee.gasLimit * gasPrice
    let maxFeeAndValue := maxFee + tx.value
    if balance < maxFeeAndValue then
      .error (.NotEnoughBalanceForFeeValue balance maxFee tx.value)
    else
      .ok ()

/-- `TxSender::validate_tx`: the fast, storage-read-only validation stage,
given the unwrapped expected nonce and the initiator balance read from
storage, and the intrinsic gas constant `l2_tx_intrinsic_gas`. -/
def validateTx (cfg : TxSenderConfig) (intrinsicGas : Nat) (tx : L2TxModel)
    (expectedNonce balance : Nat) : Except SubmitTxError Unit :=
  if tx.fee.gasLimit > U32_MAX ∨ tx.fee.gasPerPubdataLimit > U32_MAX then
    .error .GasLimitIsTooBig
  else if tx.fee.gasLimit > cfg.maxAllowedL2TxGasLimit then
    .error .GasLimitIsTooBig
  else if tx.fee.maxFeePerGas < cfg.fairL2GasPrice then
    .error .MaxFeePerGasTooLow
  else if tx.fee.maxFeePerGas < tx.fee.maxPriorityFeePerGas then
    .error .MaxPriorityFeeGreaterThanMaxFee
  else if tx.factoryDepsLength > MAX_NEW_FACTORY_DEPS then
    .error (.TooManyFactoryDependencies tx.factoryDepsLength MAX_NEW_FACTORY_DEPS)
  else if tx.fee.gasLimit < intrinsicGas then
    .error .IntrinsicGas
  else
    match validateAccountNonce cfg tx expectedNonce with
    | .error e => .error e
    | .ok _ => validateEnoughBalance cfg tx balance

/-- The kind tag of `ExecuteTransactionCommon` (`L1`, `L2`,
`ProtocolUpgrade`). -/
inductive TxKind where
  | l1
  | l2
  | protocolUpgrade
deriving Repr, DecidableEq

/-- `Transaction::is_l1` from `zksync_types`: matches only the `L1`
variant of the common data. -/
def txIsL1 (kind : TxKind) : Bool :=
  kind = TxKind.l1

/-- The early transfer check of `get_txs_fee_in_wei` (before the binary
search): fails with `InsufficientFundsForTransfer` when the transaction is
not an L1 one, the initiator account has no contract code (code hash is
`H256::zero()`), and `tx.execute.value` exceeds the initiator balance. -/
def earlyTransferCheck (kind : TxKind) (accountCodeHash balance value : Nat) :
    Except SubmitTxError Unit :=
  if ¬ txIsL1 kind ∧ accountCodeHash = 0 ∧ value > balance then
    .error .InsufficientFundsForTransfer
  else
    .ok ()

/-- One iteration plus recursion of the binary search in
`get_txs_fee_in_wei`, also recording the `try_gas_limit`
(`gas_for_bytecodes_pubdata + mid`) passed to each `estimate_gas_step`
execution.  `fails g` is the oracle for `result.result.is_failed()` of the
sandbox execution at body gas limit `g`.  Loops while
`lower_bound + acceptable_overestimation < upper_bound`, with
`mid = (lower_bound + upper_bound) / 2`; on failure `lower_bound = mid + 1`,
otherwise `upper_bound = mid`. -/
def searchLoopT (fails : Nat → Bool) (gasForPubdata accept : Nat)
    (l u : Nat) : (Nat × Nat) × List Nat :=
  if h : l + accept < u then
    let mid := (l + u) / 2
    let tryLimit := gasForPubdata + mid
    if fails tryLimit then
      let r := searchLoopT fails gasForPubdata accept (mid + 1) u
      (r.1, tryLimit :: r.2)
    else
      let r := searchLoopT fails gasForPubdata accept l mid
      (r.1, tryLimit :: r.2)
  else
    ((l, u), [])
termination_by u - l
decreasing_by
  · omega
  · omega

/-- `tx_body_gas_limit` after the search:
`min(MAX_L2_TX_GAS_LIMIT, (upper_bound as f64 * estimated_fee_scale_factor) as u32)`.
The `as u32` cast of a non-negative float truncates (and saturates at
`u32::MAX`, which is absorbed by the `min` with the smaller
`MAX_L2_TX_GAS_LIMIT`). -/
def txBodyGasLimit (upper : Nat) (scaleFactor : ℚ) : Nat :=
  min MAX_L2_TX_GAS_LIMIT (⌊(upper : ℚ) * scaleFactor⌋).toNat

/-- The search phase of `get_txs_fee_in_wei`: runs the binary search over
`[0, MAX_L2_TX_GAS_LIMIT]`, computes `tx_body_gas_limit`, and returns it
together with the list of body gas limits executed in the sandbox — the
search steps followed by the single confirming execution at
`tx_body_gas_limit + gas_for_bytecodes_pubdata`. -/
def estimatorSearch (fails : Nat → Bool) (gasForPubdata accept : Nat)
    (scaleFactor : ℚ) : Nat × List Nat :=
  let r := searchLoopT fails gasForPubdata accept 0 MAX_L2_TX_GAS_LIMIT
  let txBody := txBodyGasLimit r.1.2 scaleFactor
  (txBody, r.2 ++ [txBody + gasForPubdata])

/-- The `Fee` four-tuple returned by the estimator. -/
structure Fee where
  maxFeePerGas : Nat
  maxPriorityFeePerGas : Nat
  gasLimit : Nat
  gasPerPubdataLimit : Nat
deriving Repr, DecidableEq

/-- The tail of `get_txs_fee_in_wei` after the final confirming step:
`full_gas_limit = tx_body_gas_limit.overflowing_add(gas_for_bytecodes_pubdata
+ overhead)`; on 32-bit overflow the function fails with
`ExecutionReverted("exceeds block gas limit")`, otherwise it returns
`Fee { base_fee, 0, full_gas_limit, gas_per_pubdata_byte }`.  `overhead` is
`derive_overhead(suggested_gas_limit, ...)` from `multivm`, passed in as a
value; the inner `u32` addition is modelled exactly (callers must keep it
below `2^32`). -/
def finalizeFee (baseFee gasPerPubdataByte txBody gasForPubdata overhead : Nat) :
    Except SubmitTxError Fee :=
  let add := gasForPubdata + overhead
  if txBody + add ≥ 2 ^ 32 then
    .error (.ExecutionReverted "exceeds block gas limit" [])
  else
    .ok { maxFeePerGas := baseFee
          maxPriorityFeePerGas := 0
          gasLimit := txBody + add
          gasPerPubdataLimit := gasPerPubdataByte }

/-- Modelled from the spec: `ProtocolVersionId::last_pre_boojum()` from
`zksync_types` (not under the supplied sources).  Per the protocol-version
table, version 18 is the first post-boojum one, so the last pre-boojum
version is 17. -/
def lastPreBoojum : Nat := 17

/-- Modelled from the spec: `ProtocolVersionId::latest()` from
`zksync_types` (not under the supplied sources).  Per the protocol-version
table, the highest version is 20. -/
def latestProtocolVersion : Nat := 20

/-- Protocol version resolution shared by `get_txs_fee_in_wei` and
`gas_price`: the pending block's stored protocol version, defaulting to the
last pre-boojum version when absent. -/
def resolveProtocolVersion (stored : Option Nat) : Nat :=
  stored.getD lastPreBoojum

/-- The scaled oracle price as computed in `get_txs_fee_in_wei`:
`(effective_gas_price as f64 * gas_price_scale_factor) as u64`, i.e.
truncation towards zero. -/
def scaledL1GasPriceEstimate (effectiveGasPrice : Nat) (scaleFactor : ℚ) : Nat :=
  (⌊(effectiveGasPrice : ℚ) * scaleFactor⌋).toNat

/-- The scaled oracle price as computed in `gas_price`:
`(gas_price as f64 * gas_price_scale_factor).round() as u64`, i.e. rounding
half away from zero (on non-negative inputs, Mathlib's `round`). -/
def scaledL1GasPriceSpot (effectiveGasPrice : Nat) (scaleFactor : ℚ) : Nat :=
  (round ((effectiveGasPrice : ℚ) * scaleFactor)).toNat

/-- The `l1_gas_price` used by `get_txs_fee_in_wei`: the truncated scaled
oracle price further adjusted by `adjust_l1_gas_price_for_tx` (a `multivm`
function, taken as a parameter) with the fair L2 gas price, the tx's
`gas_per_pubdata_byte_limit` and the protocol version. -/
def estimateL1GasPrice (adjust : Nat → Nat → Nat → Nat → Nat)
    (effectiveGasPrice : Nat) (scaleFactor : ℚ)
    (fairL2GasPrice txGasPerPubdataLimit : Nat) (storedVersion : Option Nat) : Nat :=
  adjust (scaledL1GasPriceEstimate effectiveGasPrice scaleFactor)
    fairL2GasPrice txGasPerPubdataLimit (resolveProtocolVersion storedVersion)

/-- The `base_fee` derived in `get_txs_fee_in_wei`:
`derive_base_fee_and_gas_per_pubdata(l1_gas_price, fair_l2_gas_price,
protocol_version).0`, with `derive` the `multivm` function taken as a
parameter. -/
def estimatorBaseFee (derive : Nat → Nat → Nat → Nat × Nat)
    (adjust : Nat → Nat → Nat → Nat → Nat)
    (effectiveGasPrice : Nat) (scaleFactor : ℚ)
    (fairL2GasPrice txGasPerPubdataLimit : Nat) (storedVersion : Option Nat) : Nat :=
  (derive
    (estimateL1GasPrice adjust effectiveGasPrice scaleFactor
      fairL2GasPrice txGasPerPubdataLimit storedVersion)
    fairL2GasPrice (resolveProtocolVersion storedVersion)).1

/-- `TxSender::gas_price`: rounds the scaled oracle price and feeds it to
the same `derive_base_fee_and_gas_per_pubdata`, returning only the
`base_fee`; no per-transaction adjustment is applied. -/
def gasPriceEndpoint (derive : Nat → Nat → Nat → Nat × Nat)
    (effectiveGasPrice : Nat) (scaleFactor : ℚ)
    (fairL2GasPrice : Nat) (storedVersion : Option Nat) : Nat :=
  (derive (scaledL1GasPriceSpot effectiveGasPrice scaleFactor)
    fairL2GasPrice (resolveProtocolVersion storedVersion)).1

/-- `TxSender::ensure_tx_executable`: derives the seal data and queries the
seal predicate, both at `ProtocolVersionId::latest()`.  `sealDataFor v` is
`SealData::for_transaction(transaction, tx_metrics, v)` and
`findUnexecutableReason` is the configured sealer, both for a fixed
transaction and metrics. -/
def ensureTxExecutable {α : Type} (sealDataFor : Nat → α)
    (findUnexecutableReason : α → Nat → Option String) :
    Except SubmitTxError Unit :=
  let protocolVersion := latestProtocolVersion
  let sealData := sealDataFor protocolVersion
  match findUnexecutableReason sealData protocolVersion with
  | some reason => .error (.Unexecutable reason)
  | none => .ok ()

/-- The seal-admissibility call site as it appears in `submit_tx` and
`get_txs_fee_in_wei`: the pending block's protocol version is in scope
there, but `ensure_tx_executable` is invoked without it. -/
def sealCheckInPipeline {α : Type} (blockProtocolVersion : Nat)
    (sealDataFor : Nat → α)
    (findUnexecutableReason : α → Nat → Option String) :
    Except SubmitTxError Unit :=
  ensureTxExecutable sealDataFor findUnexecutableReason

/-- A single batch status change (`BatchStatusChange`): batch number, L1
transaction hash and timestamp (hash and timestamp modelled as `Nat`). -/
structure BatchStatusChange where
  number : Nat
  l1TxHash : Nat
  happenedAt : Nat
deriving Repr, DecidableEq

/-- The three change sequences collected per polling cycle
(`StatusChanges`). -/
structure StatusChanges where
  commit : List BatchStatusChange
  prove : List BatchStatusChange
  execute : List BatchStatusChange
deriving Repr, DecidableEq

/-- `StatusChanges::is_empty`. -/
def StatusChanges.isEmpty (c : StatusChanges) : Bool :=
  c.commit.isEmpty && c.prove.isEmpty && c.execute.isEmpty

/-- The reconciler's in-memory counters (`last_committed_l1_batch`,
`last_proven_l1_batch`, `last_executed_l1_batch`). -/
structure ReconcilerState where
  lastCommitted : Nat
  lastProven : Nat
  lastExecuted : Nat
deriving Repr, DecidableEq

/-- One of the three per-action loops of `apply_status_changes`: for each
change in order, ensure its number is at most `bound`, failing with the given
internal-error message otherwise, and set the counter to the change's
number. -/
def applyChangeList (bound : Nat) (lastX : Nat)
    (changes : List BatchStatusChange) (msg : String) : Except String Nat :=
  match changes with
  | [] => .ok lastX
  | c :: rest =>
      if c.number ≤ bound then applyChangeList bound c.number rest msg
      else .error msg

/-- `BatchStatusUpdater::apply_status_changes` (state part): commit changes
are checked against the freshly read last sealed batch, prove changes against
the (updated) last committed batch, execute changes against the (updated)
last proven batch; on success the three counters are the numbers of the last
changes applied. -/
def applyStatusChanges (lastSealed : Nat) (st : ReconcilerState)
    (changes : StatusChanges) : Except String ReconcilerState :=
  match applyChangeList lastSealed st.lastCommitted changes.commit
      "Incorrect update state: unknown batch marked as committed" with
  | .error e => .error e
  | .ok lc =>
      match applyChangeList lc st.lastProven changes.prove
          "Incorrect update state: proven batch must be committed" with
      | .error e => .error e
      | .ok lp =>
          match applyChangeList lp st.lastExecuted changes.execute
              "Incorrect update state: executed batch must be proven" with
          | .error e => .error e
          | .ok le => .ok { lastCommitted := lc, lastProven := lp, lastExecuted := le }

/-- The invariant `last_executed ≤ last_proven ≤ last_committed ≤
last_locally_sealed`. -/
def ReconcilerInvariant (lastSealed : Nat) (st : ReconcilerState) : Prop :=
  st.lastExecuted ≤ st.lastProven ∧ st.lastProven ≤ st.lastCommitted ∧
    st.lastCommitted ≤ lastSealed

instance (lastSealed : Nat) (st : ReconcilerState) :
    Decidable (ReconcilerInvariant lastSealed st) := by
  unfold ReconcilerInvariant; infer_instance

/-- A change list is contiguous from `n`: its first entry has number `n` and
each subsequent entry increments the number by one (the `StatusChanges`
shape produced by a polling cycle). -/
def contiguousFrom (n : Nat) : List BatchStatusChange → Bool
  | [] => true
  | c :: rest => c.number = n && contiguousFrom (n + 1) rest

/-- The fields of `api::BlockDetails` consumed by the reconciler. -/
structure BlockDetails where
  l1BatchNumber : Nat
  commitTxHash : Option Nat
  committedAt : Option Nat
  proveTxHash : Option Nat
  provenAt : Option Nat
  executeTxHash : Option Nat
  executedAt : Option Nat
deriving Repr, DecidableEq

/-- `UpdaterError`: a JSON-RPC (`Web3`) error or an internal error. -/
inductive UpdaterError where
  | web3
  | internalErr (msg : String)
deriving Repr, DecidableEq

/-- The upstream main-node client: both calls may fail with a JSON-RPC
error (modelled as `Except Unit`). -/
structure MainNodeClient where
  resolveL1BatchToMiniblock : Nat → Except Unit (Option Nat)
  blockDetails : Nat → Except Unit (Option BlockDetails)

/-- `BatchStatusUpdater::update_committed_batch`: pushes a commit change and
increments the counter when the commit transaction hash is present and the
batch number is exactly the next one; fails internally when the commit
timestamp is missing. -/
def updateCommittedBatch (changes : StatusChanges) (info : BlockDetails)
    (lastCommitted : Nat) : Except String (StatusChanges × Nat) :=
  match info.commitTxHash with
  | none => .ok (changes, lastCommitted)
  | some hash =>
      if info.l1BatchNumber ≠ lastCommitted + 1 then .ok (changes, lastCommitted)
      else
        match info.committedAt with
        | none =>
            .error "Malformed API response: batch is committed, but has no commit timestamp"
        | some t =>
            .ok ({ changes with
                    commit := changes.commit ++ [⟨info.l1BatchNumber, hash, t⟩] },
                 lastCommitted + 1)

/-- `BatchStatusUpdater::update_proven_batch` (same shape for the prove
action). -/
def updateProvenBatch (changes : StatusChanges) (info : BlockDetails)
    (lastProven : Nat) : Except String (StatusChanges × Nat) :=
  match info.proveTxHash with
  | none => .ok (changes, lastProven)
  | some hash =>
      if info.l1BatchNumber ≠ lastProven + 1 then .ok (changes, lastProven)
      else
        match info.provenAt with
        | none =>
            .error "Malformed API response: batch is proven, but has no prove timestamp"
        | some t =>
            .ok ({ changes with
                    prove := changes.prove ++ [⟨info.l1BatchNumber, hash, t⟩] },
                 lastProven + 1)

/-- `BatchStatusUpdater::update_executed_batch` (same shape for the execute
action). -/
def updateExecutedBatch (changes : StatusChanges) (info : BlockDetails)
    (lastExecuted : Nat) : Except String (StatusChanges × Nat) :=
  match info.executeTxHash with
  | none => .ok (changes, lastExecuted)
  | some hash =>
      if info.l1BatchNumber ≠ lastExecuted + 1 then .ok (changes, lastExecuted)
      else
        match info.executedAt with
        | none =>
            .error "Malformed API response: batch is executed, but has no execute timestamp"
        | some t =>
            .ok ({ changes with
                    execute := changes.execute ++ [⟨info.l1BatchNumber, hash, t⟩] },
                 lastExecuted + 1)

/-- The `while batch ≤ last_sealed_batch` loop of
`BatchStatusUpdater::get_status_changes`.  Returns the accumulated changes
(also on error — the source mutates `status_changes` in place, so changes
fetched before an error are kept) together with `none` on success or the
`UpdaterError` raised.  On an upstream `None` miniblock resolution the loop
returns successfully; on a missing `block_details` it fails internally;
after each processed batch the skip-ahead rule advances `batch`. -/
def getStatusChangesGo (client : MainNodeClient) (lastSealed : Nat)
    (batch lc lp le : Nat) (acc : StatusChanges) :
    StatusChanges × Option UpdaterError :=
  if hb : batch ≤ lastSealed then
    match client.resolveL1BatchToMiniblock batch with
    | .error _ => (acc, some .web3)
    | .ok none => (acc, none)
    | .ok (some miniblock) =>
        match client.blockDetails miniblock with
        | .error _ => (acc, some .web3)
        | .ok none =>
            (acc, some (.internalErr "Node API is inconsistent"))
        | .ok (some info) =>
            match updateCommittedBatch acc info lc with
            | .error m => (acc, some (.internalErr m))
            | .ok (acc1, lc1) =>
                match updateProvenBatch acc1 info lp with
                | .error m => (acc1, some (.internalErr m))
                | .ok (acc2, lp1) =>
                    match updateExecutedBatch acc2 info le with
                    | .error m => (acc2, some (.internalErr m))
                    | .ok (acc3, le1) =>
                        if info.commitTxHash = none then
                          (acc3, none)
                        else if hskip : info.proveTxHash = none ∧ batch < lc1 then
                          getStatusChangesGo client lastSealed (lc1 + 1) lc1 lp1 le1 acc3
                        else if hskip2 : info.executedAt = none ∧ batch < lp1 then
                          getStatusChangesGo client lastSealed (lp1 + 1) lc1 lp1 le1 acc3
                        else
                          getStatusChangesGo client lastSealed (batch + 1) lc1 lp1 le1 acc3
  else
    (acc, none)
termination_by lastSealed + 1 - batch
decreasing_by
  · omega
  · omega
  · omega

/-- `BatchStatusUpdater::get_status_changes`: starts at
`last_executed + 1` with locals initialized from the reconciler state and an
empty change collection, scanning up to the locally sealed batch. -/
def getStatusChanges (client : MainNodeClient) (lastSealed : Nat)
    (st : ReconcilerState) : StatusChanges × Option UpdaterError :=
  getStatusChangesGo client lastSealed (st.lastExecuted + 1)
    st.lastCommitted st.lastProven st.lastExecuted ⟨[], [], []⟩

/-- The observable outcome of one iteration of `BatchStatusUpdater::run`. -/
inductive CycleOutcome where
  | halt (msg : String)
  | sleep
  | applied (changes : StatusChanges)
deriving Repr, DecidableEq

/-- One iteration of `BatchStatusUpdater::run`, as a function of the fetch
outcome: an internal error propagates (halting the loop); otherwise — on
success or after logging a Web3 error — empty changes lead to a sleep, and
non-empty changes are applied. -/
def runCycle (fetch : StatusChanges × Option UpdaterError) : CycleOutcome :=
  match fetch.2 with
  | some (.internalErr m) => .halt m
  | _ =>
      if fetch.1.isEmpty then .sleep else .applied fetch.1

set_option maxHeartbeats 1600000 in
/-- C2: `validate_tx` returns on the first failing check, in this order:
`GasLimitIsTooBig` when `gas_limit > u32::MAX` or
`gas_per_pubdata_limit > u32::MAX` or `gas_limit >
max_allowed_l2_tx_gas_limit`; `MaxFeePerGasTooLow` when `max_fee_per_gas <
fair_l2_gas_price`; `MaxPriorityFeeGreaterThanMaxFee` when
`max_priority_fee_per_gas > max_fee_per_gas`; `TooManyFactoryDependencies`
when the factory-dependency count exceeds `MAX_NEW_FACTORY_DEPS`;
`IntrinsicGas` when `gas_limit < l2_tx_intrinsic_gas`; then the nonce check,
then the balance check. -/
theorem c2_validate_tx_first_failure (cfg : TxSenderConfig) (intrinsicGas : Nat)
    (tx : L2TxModel) (expectedNonce balance : Nat) :
    (validateTx cfg intrinsicGas tx expectedNonce balance = .error .GasLimitIsTooBig
      ↔ tx.fee.gasLimit > U32_MAX ∨ tx.fee.gasPerPubdataLimit > U32_MAX ∨
        tx.fee.gasLimit > cfg.maxAllowedL2TxGasLimit) ∧
    (validateTx cfg intrinsicGas tx expectedNonce balance = .error .MaxFeePerGasTooLow
      ↔ ¬ (tx.fee.gasLimit > U32_MAX ∨ tx.fee.gasPerPubdataLimit > U32_MAX ∨
            tx.fee.gasLimit > cfg.maxAllowedL2TxGasLimit) ∧
        tx.fee.maxFeePerGas < cfg.fairL2GasPrice) ∧
    (validateTx cfg intrinsicGas tx expectedNonce balance
        = .error .MaxPriorityFeeGreaterThanMaxFee
      ↔ ¬ (tx.fee.gasLimit > U32_MAX ∨ tx.fee.gasPerPubdataLimit > U32_MAX ∨
            tx.fee.gasLimit > cfg.maxAllowedL2TxGasLimit) ∧
        ¬ tx.fee.maxFeePerGas < cfg.fairL2GasPrice ∧
        tx.fee.maxPriorityFeePerGas > tx.fee.maxFeePerGas) ∧
    (validateTx cfg intrinsicGas tx expectedNonce balance
        = .error (.TooManyFactoryDependencies tx.factoryDepsLength MAX_NEW_FACTORY_DEPS)
      ↔ ¬ (tx.fee.gasLimit > U32_MAX ∨ tx.fee.gasPerPubdataLimit > U32_MAX ∨
            tx.fee.gasLimit > cfg.maxAllowedL2TxGasLimit) ∧
        ¬ tx.fee.maxFeePerGas < cfg.fairL2GasPrice ∧
        ¬ tx.fee.maxPriorityFeePerGas > tx.fee.maxFeePerGas ∧
        tx.factoryDepsLength > MAX_NEW_FACTORY_DEPS) ∧
    (validateTx cfg intrinsicGas tx expectedNonce balance = .error .IntrinsicGas
      ↔ ¬ (tx.fee.gasLimit > U32_MAX ∨ tx.fee.gasPerPubdataLimit > U32_MAX ∨
            tx.fee.gasLimit > cfg.maxAllowedL2TxGasLimit) ∧
        ¬ tx.fee.maxFeePerGas < cfg.fairL2GasPrice ∧
        ¬ tx.fee.maxPriorityFeePerGas > tx.fee.maxFeePerGas ∧
        ¬ tx.factoryDepsLength > MAX_NEW_FACTORY_DEPS ∧
        tx.fee.gasLimit < intrinsicGas) ∧
    (validateTx cfg intrinsicGas tx expectedNonce balance
        = .error (.NonceIsTooLow expectedNonce (expectedNonce + cfg.maxNonceAhead) tx.nonce)
      ↔ ¬ (tx.fee.gasLimit > U32_MAX ∨ tx.fee.gasPerPubdataLimit > U32_MAX ∨
            tx.fee.gasLimit > cfg.maxAllowedL2TxGasLimit) ∧
        ¬ tx.fee.maxFeePerGas < cfg.fairL2GasPrice ∧
        ¬ tx.fee.maxPriorityFeePerGas > tx.fee.maxFeePerGas ∧
        ¬ tx.factoryDepsLength > MAX_NEW_FACTORY_DEPS ∧
        ¬ tx.fee.gasLimit < intrinsicGas ∧
        tx.nonce < expectedNonce) ∧
    (validateTx cfg intrinsicGas tx expectedNonce balance
        = .error (.NonceIsTooHigh expectedNonce (expectedNonce + cfg.maxNonceAhead) tx.nonce)
      ↔ ¬ (tx.fee.gasLimit > U32_MAX ∨ tx.fee.gasPerPubdataLimit > U32_MAX ∨
            tx.fee.gasLimit > cfg.maxAllowedL2TxGasLimit) ∧
        ¬ tx.fee.maxFeePerGas < cfg.fairL2GasPrice ∧
        ¬ tx.fee.maxPriorityFeePerGas > tx.fee.maxFeePerGas ∧
        ¬ tx.factoryDepsLength > MAX_NEW_FACTORY_DEPS ∧
        ¬ tx.fee.gasLimit < intrinsicGas ∧
        tx.nonce > expectedNonce + cfg.maxNonceAhead) ∧
    (tx.paymaster = 0 →
      (validateTx cfg intrinsicGas tx expectedNonce balance
          = .error (.NotEnoughBalanceForFeeValue balance
              (tx.fee.gasLimit * min tx.fee.maxFeePerGas
                (cfg.fairL2GasPrice + tx.fee.maxPriorityFeePerGas)) tx.value)
        ↔ ¬ (tx.fee.gasLimit > U32_MAX ∨ tx.fee.gasPerPubdataLimit > U32_MAX ∨
              tx.fee.gasLimit > cfg.maxAllowedL2TxGasLimit) ∧
          ¬ tx.fee.maxFeePerGas < cfg.fairL2GasPrice ∧
          ¬ tx.fee.maxPriorityFeePerGas > tx.fee.maxFeePerGas ∧
          ¬ tx.factoryDepsLength > MAX_NEW_FACTORY_DEPS ∧
          ¬ tx.fee.gasLimit < intrinsicGas ∧
          expectedNonce ≤ tx.nonce ∧ tx.nonce ≤ expectedNonce + cfg.maxNonceAhead ∧
          balance < tx.fee.gasLimit * min tx.fee.maxFeePerGas
            (cfg.fairL2GasPrice + tx.fee.maxPriorityFeePerGas) + tx.value))
    := by
  refine ⟨?_, ?_, ?_, ?_, ?_, ?_, ?_, ?_⟩ <;>
    · unfold validateTx validateAccountNonce validateEnoughBalance
      split_ifs <;> intros <;> simp_all <;>
        (try (split_ifs <;> simp_all)) <;> (try omega)

/-- C2 witness: a concrete transaction whose `max_priority_fee_per_gas`
exceeds `max_fee_per_gas` while the gas-limit and fee-floor checks pass is
rejected with exactly `MaxPriorityFeeGreaterThanMaxFee`. -/
theorem c2_validate_tx_first_failure_witness :
    validateTx ⟨1000000, 10, 5⟩ 2100 ⟨0, ⟨50000, 1000, 1001, 800⟩, 1, 0, 0, 0⟩ 0 0
      = .error .MaxPriorityFeeGreaterThanMaxFee :=
  (c2_validate_tx_first_failure ⟨1000000, 10, 5⟩ 2100
      ⟨0, ⟨50000, 1000, 1001, 800⟩, 1, 0, 0, 0⟩ 0 0).2.2.1.mpr
    (by decide)

/-- C3: `validate_account_nonce` rejects `NonceIsTooLow(expected,
expected + max_nonce_ahead, given)` exactly when `tx.nonce < expected_nonce`
and `NonceIsTooHigh(expected, expected + max_nonce_ahead, given)` exactly
when `tx.nonce > expected_nonce + max_nonce_ahead`; the expected nonce is
read at the latest sealed miniblock (or at `projected_first_miniblock - 1`
when no miniblocks exist); and every transaction passing `validate_tx` has
`expected_nonce ≤ tx.nonce ≤ expected_nonce + max_nonce_ahead`. -/
theorem c3_nonce_window (cfg : TxSenderConfig) (s : StorageModel)
    (tx : L2TxModel) (intrinsicGas balance : Nat) :
    (s.sealedMiniblockNumber = none →
      latestNonceBlock s = s.projectedFirstMiniblock - 1) ∧
    (∀ n, s.sealedMiniblockNumber = some n → latestNonceBlock s = n) ∧
    (s.nonceAt tx.initiator (latestNonceBlock s) ≤ U32_MAX →
      getExpectedNonce s tx.initiator
        = some (s.nonceAt tx.initiator (latestNonceBlock s))) ∧
    (∀ expectedNonce : Nat,
      (validateAccountNonce cfg tx expectedNonce
          = .error (.NonceIsTooLow expectedNonce
              (expectedNonce + cfg.maxNonceAhead) tx.nonce)
        ↔ tx.nonce < expectedNonce) ∧
      (validateAccountNonce cfg tx expectedNonce
          = .error (.NonceIsTooHigh expectedNonce
              (expectedNonce + cfg.maxNonceAhead) tx.nonce)
        ↔ tx.nonce > expectedNonce + cfg.maxNonceAhead) ∧
      (validateAccountNonce cfg tx expectedNonce = .ok ()
        ↔ expectedNonce ≤ tx.nonce ∧ tx.nonce ≤ expectedNonce + cfg.maxNonceAhead) ∧
      (validateTx cfg intrinsicGas tx expectedNonce balance = .ok () →
        expectedNonce ≤ tx.nonce ∧ tx.nonce ≤ expectedNonce + cfg.maxNonceAhead)) := by
  refine ⟨?_, ?_, ?_, ?_⟩
  · intro h; unfold latestNonceBlock; rw [h]
  · intro n h; unfold latestNonceBlock; rw [h]
  · intro h; unfold getExpectedNonce; simp [h]
  · intro expectedNonce
    refine ⟨?_, ?_, ?_, ?_⟩ <;>
      · simp only [validateTx, validateAccountNonce, validateEnoughBalance]
        split_ifs <;> intros <;> simp_all <;>
          (try (split_ifs at * <;> simp_all)) <;> (try omega)

/-- C3 witness: with `expected = 5` and `max_nonce_ahead = 10`, nonce 16 is
rejected with exactly `NonceIsTooHigh(5, 15, 16)`, and the expected nonce of
an empty storage is read at `projected_first_miniblock - 1`. -/
theorem c3_nonce_window_witness :
    validateAccountNonce ⟨1000000, 10, 10⟩ ⟨16, ⟨50000, 1000, 0, 800⟩, 1, 0, 0, 0⟩ 5
        = .error (.NonceIsTooHigh 5 15 16) ∧
      latestNonceBlock ⟨none, 7, fun _ _ => 3, fun _ => 0⟩ = 6 := by
  have h := c3_nonce_window ⟨1000000, 10, 10⟩ ⟨none, 7, fun _ _ => 3, fun _ => 0⟩
    ⟨16, ⟨50000, 1000, 0, 800⟩, 1, 0, 0, 0⟩ 2100 0
  exact ⟨(h.2.2.2 5).2.1.mpr (by decide), h.1 rfl⟩

/-- C4: when the transaction has no paymaster, `validate_enough_balance`
rejects `NotEnoughBalanceForFeeValue(balance, max_fee, value)` exactly when
the initiator balance is strictly below
`gas_limit * min(max_fee_per_gas, fair_l2_gas_price +
max_priority_fee_per_gas) + value` (with `max_fee` the product); when a
paymaster is set the check is skipped and the function succeeds regardless of
balance. -/
theorem c4_balance_check (cfg : TxSenderConfig) (tx : L2TxModel) (balance : Nat) :
    (tx.paymaster ≠ 0 → validateEnoughBalance cfg tx balance = .ok ()) ∧
    (tx.paymaster = 0 →
      (validateEnoughBalance cfg tx balance
          = .error (.NotEnoughBalanceForFeeValue balance
              (tx.fee.gasLimit * min tx.fee.maxFeePerGas
                (cfg.fairL2GasPrice + tx.fee.maxPriorityFeePerGas)) tx.value)
        ↔ balance < tx.fee.gasLimit * min tx.fee.maxFeePerGas
            (cfg.fairL2GasPrice + tx.fee.maxPriorityFeePerGas) + tx.value) ∧
      (validateEnoughBalance cfg tx balance = .ok ()
        ↔ tx.fee.gasLimit * min tx.fee.maxFeePerGas
            (cfg.fairL2GasPrice + tx.fee.maxPriorityFeePerGas) + tx.value ≤ balance)) := by
  refine ⟨?_, ?_⟩ <;>
    · intro h
      unfold validateEnoughBalance
      split_ifs <;> simp_all <;> omega

/-- C4 witness: a paymaster-less transaction with balance one below
`gas_limit * min(max_fee, fair + priority) + value` is rejected with the
exact `NotEnoughBalanceForFeeValue` payload, and the same transaction with a
paymaster set passes with zero balance. -/
theorem c4_balance_check_witness :
    validateEnoughBalance ⟨1000000, 10, 5⟩ ⟨0, ⟨100, 20, 7, 800⟩, 1, 0, 3, 0⟩ 1702
        = .error (.NotEnoughBalanceForFeeValue 1702 1700 3) ∧
      validateEnoughBalance ⟨1000000, 10, 5⟩ ⟨0, ⟨100, 20, 7, 800⟩, 1, 9, 3, 0⟩ 0
        = .ok () := by
  refine ⟨?_, ?_⟩
  · have h := (c4_balance_check ⟨1000000, 10, 5⟩
      ⟨0, ⟨100, 20, 7, 800⟩, 1, 0, 3, 0⟩ 1702).2 rfl
    exact h.1.mpr (by decide)
  · exact (c4_balance_check ⟨1000000, 10, 5⟩
      ⟨0, ⟨100, 20, 7, 800⟩, 1, 9, 3, 0⟩ 0).1 (by decide)

theorem searchLoopT_stop (f : Nat → Bool) (p a l u : Nat) (h : ¬ l + a < u) :
    searchLoopT f p a l u = ((l, u), []) := by
  rw [searchLoopT]
  simp [h]

theorem searchLoopT_step_fail (f : Nat → Bool) (p a l u : Nat)
    (h : l + a < u) (hf : f (p + (l + u) / 2) = true) :
    searchLoopT f p a l u
      = ((searchLoopT f p a ((l + u) / 2 + 1) u).1,
         (p + (l + u) / 2) :: (searchLoopT f p a ((l + u) / 2 + 1) u).2) := by
  rw [searchLoopT]
  simp [h, hf]

theorem searchLoopT_step_ok (f : Nat → Bool) (p a l u : Nat)
    (h : l + a < u) (hf : f (p + (l + u) / 2) = false) :
    searchLoopT f p a l u
      = ((searchLoopT f p a l ((l + u) / 2)).1,
         (p + (l + u) / 2) :: (searchLoopT f p a l ((l + u) / 2)).2) := by
  rw [searchLoopT]
  simp [h, hf]

theorem searchLoopT_final (f : Nat → Bool) (p a : Nat) :
    ∀ m l u, u - l ≤ m →
      ¬ ((searchLoopT f p a l u).1.1 + a < (searchLoopT f p a l u).1.2) := by
  intro m
  induction m with
  | zero =>
      intro l u h
      have hstop : ¬ l + a < u := by omega
      rw [searchLoopT]
      simp [hstop]
  | succ n ih =>
      intro l u h
      rw [searchLoopT]
      by_cases hc : l + a < u
      · simp only [hc, dif_pos]
        by_cases hf : f (p + (l + u) / 2) = true
        · simp only [hf, if_pos]
          exact ih ((l + u) / 2 + 1) u (by omega)
        · simp only [eq_self_iff_true, hf, if_neg]
          exact ih l ((l + u) / 2) (by omega)
      · simp [hc]

/-- C1: the fee-estimation binary search is left-biased with
`mid = (lower + upper) / 2`, executing each step at
`gas_for_bytecodes_pubdata + mid`; it sets `lower = mid + 1` when the VM
result fails and `upper = mid` otherwise; it stops exactly at the first
state with `lower + acceptable_overestimation ≥ upper`; then
`tx_body_gas_limit = min(MAX_L2_TX_GAS_LIMIT, floor(upper * scale_factor))`,
and exactly one extra confirming execution runs at
`tx_body_gas_limit + gas_for_bytecodes_pubdata`. -/
theorem c1_binary_search (f : Nat → Bool) (gasForPubdata accept : Nat)
    (scaleFactor : ℚ) (l u : Nat) :
    (¬ l + accept < u →
      searchLoopT f gasForPubdata accept l u = ((l, u), [])) ∧
    (l + accept < u → f (gasForPubdata + (l + u) / 2) = true →
      searchLoopT f gasForPubdata accept l u
        = ((searchLoopT f gasForPubdata accept ((l + u) / 2 + 1) u).1,
           (gasForPubdata + (l + u) / 2)
             :: (searchLoopT f gasForPubdata accept ((l + u) / 2 + 1) u).2)) ∧
    (l + accept < u → f (gasForPubdata + (l + u) / 2) = false →
      searchLoopT f gasForPubdata accept l u
        = ((searchLoopT f gasForPubdata accept l ((l + u) / 2)).1,
           (gasForPubdata + (l + u) / 2)
             :: (searchLoopT f gasForPubdata accept l ((l + u) / 2)).2)) ∧
    (¬ ((searchLoopT f gasForPubdata accept l u).1.1 + accept
          < (searchLoopT f gasForPubdata accept l u).1.2)) ∧
    (txBodyGasLimit u scaleFactor
      = min MAX_L2_TX_GAS_LIMIT (⌊(u : ℚ) * scaleFactor⌋).toNat) ∧
    (estimatorSearch f gasForPubdata accept scaleFactor
      = (txBodyGasLimit
           (searchLoopT f gasForPubdata accept 0 MAX_L2_TX_GAS_LIMIT).1.2
           scaleFactor,
         (searchLoopT f gasForPubdata accept 0 MAX_L2_TX_GAS_LIMIT).2
           ++ [txBodyGasLimit
                 (searchLoopT f gasForPubdata accept 0 MAX_L2_TX_GAS_LIMIT).1.2
                 scaleFactor + gasForPubdata])) :=
  ⟨searchLoopT_stop f gasForPubdata accept l u,
   searchLoopT_step_fail f gasForPubdata accept l u,
   searchLoopT_step_ok f gasForPubdata accept l u,
   searchLoopT_final f gasForPubdata accept (u - l) l u le_rfl,
   rfl,
   rfl⟩

/-- C1 witness: with a sandbox oracle failing below body gas limit 5, from
state `(0, 8)` with zero pubdata gas and zero acceptable overestimation the
search executes at `mid = 4` and moves to `lower = 5`. -/
theorem c1_binary_search_witness :
    searchLoopT (fun g => decide (g < 5)) 0 0 0 8
      = ((searchLoopT (fun g => decide (g < 5)) 0 0 ((0 + 8) / 2 + 1) 8).1,
         (0 + (0 + 8) / 2)
           :: (searchLoopT (fun g => decide (g < 5)) 0 0 ((0 + 8) / 2 + 1) 8).2) :=
  (c1_binary_search (fun g => decide (g < 5)) 0 0 1 0 8).2.1
    (by decide) (by decide)

/-- C5: after the final confirming step, `full_gas_limit =
tx_body_gas_limit + gas_for_bytecodes_pubdata + overhead`, the function
fails with `ExecutionReverted("exceeds block gas limit")` exactly when this
sum overflows the unsigned 32-bit range, and otherwise returns
`Fee { base_fee, 0, full_gas_limit, gas_per_pubdata_byte }`.  The
hypotheses confine the statement to inputs where the intermediate `u32`
quantities of the source are representable. -/
theorem c5_full_gas_limit (baseFee gasPerPubdataByte txBody pubdata overhead : Nat)
    (htx : txBody < 2 ^ 32) (hadd : pubdata + overhead < 2 ^ 32) :
    (finalizeFee baseFee gasPerPubdataByte txBody pubdata overhead
        = .error (.ExecutionReverted "exceeds block gas limit" [])
      ↔ 2 ^ 32 ≤ txBody + pubdata + overhead) ∧
    (txBody + pubdata + overhead < 2 ^ 32 →
      finalizeFee baseFee gasPerPubdataByte txBody pubdata overhead
        = .ok { maxFeePerGas := baseFee
                maxPriorityFeePerGas := 0
                gasLimit := txBody + pubdata + overhead
                gasPerPubdataLimit := gasPerPubdataByte }) := by
  unfold finalizeFee
  dsimp only
  split_ifs <;> intros <;> simp_all <;> omega

/-- C5 witness: `tx_body = pubdata_gas = 2^31` overflows and yields exactly
`ExecutionReverted("exceeds block gas limit")`, while small inputs return
the `Fee` with the summed gas limit. -/
theorem c5_full_gas_limit_witness :
    finalizeFee 100 800 2147483648 2147483648 0
        = .error (.ExecutionReverted "exceeds block gas limit" []) ∧
      finalizeFee 100 800 50000 1600 300
        = .ok { maxFeePerGas := 100
                maxPriorityFeePerGas := 0
                gasLimit := 51900
                gasPerPubdataLimit := 800 } := by
  constructor
  · exact (c5_full_gas_limit 100 800 2147483648 2147483648 0
      (by norm_num) (by norm_num)).1.mpr (by norm_num)
  · exact (c5_full_gas_limit 100 800 50000 1600 300
      (by norm_num) (by norm_num)).2 (by norm_num)

/-- C6 counterexample: a `ProtocolUpgrade` transaction (not an L2 one) whose
initiator has no code and insufficient balance IS rejected by the early
transfer check, contradicting the claim that only L2 transactions can be
rejected there: the source guards with `!tx.is_l1()`, not with an L2 kind
test. -/
theorem c6_early_transfer_counterexample :
    TxKind.protocolUpgrade ≠ TxKind.l2 ∧
      earlyTransferCheck TxKind.protocolUpgrade 0 0 1
        = .error .InsufficientFundsForTransfer :=
  ⟨by decide, rfl⟩

/-- C6 (amended): the early transfer check fails with
`InsufficientFundsForTransfer` exactly when the transaction is not an L1
one (i.e. it is L2 or ProtocolUpgrade), the initiator has no contract code,
and its balance is strictly below the transferred value; L1 transactions
are never rejected by this check. -/
theorem c6_early_transfer_check (kind : TxKind) (codeHash balance value : Nat) :
    (earlyTransferCheck kind codeHash balance value
        = .error .InsufficientFundsForTransfer
      ↔ kind ≠ TxKind.l1 ∧ codeHash = 0 ∧ balance < value) ∧
    (kind = TxKind.l1 → earlyTransferCheck kind codeHash balance value = .ok ()) := by
  unfold earlyTransferCheck txIsL1
  constructor
  · split_ifs <;> simp_all
  · intro h
    split_ifs <;> simp_all

/-- C6 witness: an L2 transaction with no code and zero balance is rejected
for a positive value, and an L1 transaction never is. -/
theorem c6_early_transfer_check_witness :
    earlyTransferCheck TxKind.l2 0 0 1 = .error .InsufficientFundsForTransfer ∧
      earlyTransferCheck TxKind.l1 0 0 1 = .ok () :=
  ⟨(c6_early_transfer_check TxKind.l2 0 0 1).1.mpr (by decide),
   (c6_early_transfer_check TxKind.l1 0 0 1).2 rfl⟩

theorem applyChangeList_ok_bound (b : Nat) (m : String) :
    ∀ (l : List BatchStatusChange) (x y : Nat),
      applyChangeList b x l m = .ok y → y = x ∨ y ≤ b := by
  intro l
  induction l with
  | nil =>
      intro x y h
      simp [applyChangeList] at h
      exact Or.inl h.symm
  | cons c rest ih =>
      intro x y h
      unfold applyChangeList at h
      split_ifs at h with hc
      rcases ih c.number y h with h1 | h1
      · exact Or.inr (h1 ▸ hc)
      · exact Or.inr h1

theorem applyChangeList_mono (b : Nat) (m : String) :
    ∀ (l : List BatchStatusChange) (x y : Nat),
      contiguousFrom (x + 1) l = true →
      applyChangeList b x l m = .ok y → x ≤ y := by
  intro l
  induction l with
  | nil =>
      intro x y _ h
      simp [applyChangeList] at h
      omega
  | cons c rest ih =>
      intro x y hcont h
      unfold contiguousFrom at hcont
      unfold applyChangeList at h
      simp only [Bool.and_eq_true, decide_eq_true_eq] at hcont
      split_ifs at h with hc
      have := ih c.number y (by rw [hcont.1]; exact hcont.2) h
      omega

/-- C7: whenever the reconciler state satisfies
`last_executed ≤ last_proven ≤ last_committed ≤ last_locally_sealed` and
`apply_status_changes` succeeds on a cycle's status changes (each sequence
contiguous from the corresponding counter plus one, as collected by
`get_status_changes`), the resulting state satisfies the invariant again;
the per-change bound checks (commit ≤ last sealed, prove ≤ last committed,
execute ≤ last proven) enforce it. -/
theorem c7_reconciler_invariant (lastSealed : Nat) (st st2 : ReconcilerState)
    (changes : StatusChanges)
    (hinv : ReconcilerInvariant lastSealed st)
    (hc : contiguousFrom (st.lastCommitted + 1) changes.commit = true)
    (hp : contiguousFrom (st.lastProven + 1) changes.prove = true)
    (he : contiguousFrom (st.lastExecuted + 1) changes.execute = true)
    (happly : applyStatusChanges lastSealed st changes = .ok st2) :
    ReconcilerInvariant lastSealed st2 := by
  obtain ⟨s1, s2, s3⟩ := st2
  obtain ⟨h1, h2, h3⟩ := hinv
  unfold applyStatusChanges at happly
  cases hcc : applyChangeList lastSealed st.lastCommitted changes.commit
      "Incorrect update state: unknown batch marked as committed" with
  | error e => rw [hcc] at happly; simp at happly
  | ok lc =>
      rw [hcc] at happly
      simp only [Except.ok.injEq] at happly
      cases hpp : applyChangeList lc st.lastProven changes.prove
          "Incorrect update state: proven batch must be committed" with
      | error e => rw [hpp] at happly; simp at happly
      | ok lp =>
          rw [hpp] at happly
          simp only [Except.ok.injEq] at happly
          cases hee : applyChangeList lp st.lastExecuted changes.execute
              "Incorrect update state: executed batch must be proven" with
          | error e => rw [hee] at happly; simp at happly
          | ok le =>
              rw [hee] at happly
              simp only [Except.ok.injEq, ReconcilerState.mk.injEq] at happly
              obtain ⟨e1, e2, e3⟩ := happly
              subst e1
              subst e2
              subst e3
              have hlc2 := applyChangeList_ok_bound _ _ _ _ _ hcc
              have hlc3 := applyChangeList_mono _ _ _ _ _ hc hcc
              have hlp2 := applyChangeList_ok_bound _ _ _ _ _ hpp
              have hlp3 := applyChangeList_mono _ _ _ _ _ hp hpp
              have hle2 := applyChangeList_ok_bound _ _ _ _ _ hee
              have hle3 := applyChangeList_mono _ _ _ _ _ he hee
              refine ⟨?_, ?_, ?_⟩ <;> dsimp only <;> omega

/-- C7 witness: from state `(committed, proven, executed) = (1, 1, 0)` with
sealed batch 3, applying commits for batches 2 and 3, a prove for batch 2
and an execute for batch 1 succeeds and preserves the invariant. -/
theorem c7_reconciler_invariant_witness :
    ReconcilerInvariant 3 { lastCommitted := 3, lastProven := 2, lastExecuted := 1 } :=
  c7_reconciler_invariant 3
    { lastCommitted := 1, lastProven := 1, lastExecuted := 0 }
    { lastCommitted := 3, lastProven := 2, lastExecuted := 1 }
    { commit := [⟨2, 20, 200⟩, ⟨3, 30, 300⟩]
      prove := [⟨2, 21, 201⟩]
      execute := [⟨1, 22, 202⟩] }
    (by decide) (by decide) (by decide) (by decide) rfl

/-- Upstream block details for batch 1: committed (hash 7 at time 10) but
not yet proven or executed. -/
def c8ExampleDetails : BlockDetails :=
  { l1BatchNumber := 1
    commitTxHash := some 7
    committedAt := some 10
    proveTxHash := none
    provenAt := none
    executeTxHash := none
    executedAt := none }

/-- An upstream client that resolves batch 1 and raises a JSON-RPC error on
any other batch. -/
def c8ExampleClient : MainNodeClient :=
  { resolveL1BatchToMiniblock := fun batch =>
      if batch = 1 then .ok (some 1) else .error ()
    blockDetails := fun _ => .ok (some c8ExampleDetails) }

theorem getStatusChanges_example_eval :
    getStatusChanges c8ExampleClient 2 ⟨0, 0, 0⟩
      = (⟨[⟨1, 7, 10⟩], [], []⟩, some .web3) := by
  unfold getStatusChanges
  rw [getStatusChangesGo]
  simp only [c8ExampleClient, c8ExampleDetails, updateCommittedBatch,
    updateProvenBatch, updateExecutedBatch]
  norm_num
  rw [getStatusChangesGo]
  norm_num [c8ExampleClient]
  simp

/-- C8 counterexample: with two locally sealed batches, an upstream that
reports batch 1 as committed but raises a JSON-RPC error on batch 2, the
fetch returns a `Web3` error together with the already-fetched commit
change, and the cycle APPLIES that change — the state and storage are
updated, contradicting the claim that an RPC error leaves them untouched. -/
theorem c8_rpc_error_counterexample :
    (getStatusChanges c8ExampleClient 2 ⟨0, 0, 0⟩).2 = some .web3 ∧
      StatusChanges.isEmpty (getStatusChanges c8ExampleClient 2 ⟨0, 0, 0⟩).1 = false ∧
      runCycle (getStatusChanges c8ExampleClient 2 ⟨0, 0, 0⟩)
        = .applied ⟨[⟨1, 7, 10⟩], [], []⟩ := by
  rw [getStatusChanges_example_eval]
  exact ⟨rfl, rfl, rfl⟩

/-- C8 (amended): on an internal error from `get_status_changes` the loop
propagates it and halts; on success, or after logging a JSON-RPC (Web3)
error, the cycle proceeds with whatever changes were already fetched —
sleeping for the configured interval when they are empty and applying them
otherwise (so an RPC error does not by itself prevent state updates). -/
theorem c8_cycle_behaviour (fetch : StatusChanges × Option UpdaterError) :
    (∀ m, fetch.2 = some (.internalErr m) → runCycle fetch = .halt m) ∧
    ((fetch.2 = none ∨ fetch.2 = some .web3) →
      (fetch.1.isEmpty = true → runCycle fetch = .sleep) ∧
      (fetch.1.isEmpty = false → runCycle fetch = .applied fetch.1)) := by
  obtain ⟨c, e⟩ := fetch
  refine ⟨?_, ?_⟩
  · intro m hm
    simp only at hm
    subst hm
    simp [runCycle]
  · intro he
    constructor <;> intro hev <;>
      rcases he with h | h <;> simp only at h <;> subst h <;>
        simp [runCycle, hev]

/-- C8 witness: a fetch ending in a Web3 error with one pending commit
change is applied; the same error with no changes leads to a sleep. -/
theorem c8_cycle_behaviour_witness :
    runCycle (⟨[⟨1, 7, 10⟩], [], []⟩, some .web3)
        = .applied ⟨[⟨1, 7, 10⟩], [], []⟩ ∧
      runCycle (⟨[], [], []⟩, some .web3) = .sleep :=
  ⟨((c8_cycle_behaviour (⟨[⟨1, 7, 10⟩], [], []⟩, some .web3)).2 (Or.inr rfl)).2 rfl,
   ((c8_cycle_behaviour (⟨[], [], []⟩, some .web3)).2 (Or.inr rfl)).1 rfl⟩

/-- A distinguishing instantiation of `derive_base_fee_and_gas_per_pubdata`
(opaque to the supplied sources): returns its `l1_gas_price` argument as the
base fee. -/
def c9Derive : Nat → Nat → Nat → Nat × Nat := fun l1GasPrice _ _ => (l1GasPrice, 0)

/-- An instantiation of `adjust_l1_gas_price_for_tx` that leaves the price
unchanged. -/
def c9Adjust : Nat → Nat → Nat → Nat → Nat := fun l1GasPrice _ _ _ => l1GasPrice

/-- C9 counterexample: with oracle price 1 and `gas_price_scale_factor =
1.5`, `gas_price` rounds the scaled price to 2 while the estimator
truncates it to 1 (even with an identity per-transaction adjustment), so
for a derivation that distinguishes its `l1_gas_price` argument the two
base fees differ: the scalings are not the same. -/
theorem c9_gas_price_counterexample :
    gasPriceEndpoint c9Derive 1 (3 / 2 : ℚ) 0 none = 2 ∧
      estimatorBaseFee c9Derive c9Adjust 1 (3 / 2 : ℚ) 0 0 none = 1 := by
  constructor
  · norm_num [gasPriceEndpoint, scaledL1GasPriceSpot, resolveProtocolVersion,
      c9Derive, round_eq]
    rfl
  · norm_num [estimatorBaseFee, estimateL1GasPrice, scaledL1GasPriceEstimate,
      resolveProtocolVersion, c9Derive, c9Adjust]

/-- C9 (amended): `gas_price` feeds the same
`derive_base_fee_and_gas_per_pubdata` derivation and the same default
protocol version as the estimator and returns only the base fee, but it
rounds (rather than truncates) the scaled oracle price and omits the
per-transaction `adjust_l1_gas_price_for_tx` step; the two base fees agree
exactly on inputs where the two `l1_gas_price` computations coincide. -/
theorem c9_base_fee_agreement (derive : Nat → Nat → Nat → Nat × Nat)
    (adjust : Nat → Nat → Nat → Nat → Nat) (eff : Nat) (scale : ℚ)
    (fair lim : Nat) (stored : Option Nat)
    (h : scaledL1GasPriceSpot eff scale
          = adjust (scaledL1GasPriceEstimate eff scale) fair lim
              (resolveProtocolVersion stored)) :
    gasPriceEndpoint derive eff scale fair stored
      = estimatorBaseFee derive adjust eff scale fair lim stored := by
  unfold gasPriceEndpoint estimatorBaseFee estimateL1GasPrice
  rw [h]

/-- C9 witness: with an integral scale factor (2) and an identity
adjustment the two computations agree. -/
theorem c9_base_fee_agreement_witness :
    gasPriceEndpoint c9Derive 3 (2 : ℚ) 5 (some 18)
      = estimatorBaseFee c9Derive c9Adjust 3 (2 : ℚ) 5 9 (some 18) :=
  c9_base_fee_agreement c9Derive c9Adjust 3 2 5 9 (some 18) (by
    norm_num [scaledL1GasPriceSpot, scaledL1GasPriceEstimate, c9Adjust, round_eq])

/-- C10: the seal-admissibility call sites in `submit_tx` and
`estimate_fee` invoke the seal predicate (and derive the seal data) at
`ProtocolVersionId::latest()`: the decision is the same for every pending
block protocol version, and succeeds exactly when the sealer finds no
unexecutable reason at the latest version. -/
theorem c10_seal_check_latest {α : Type} (v v2 : Nat) (sealDataFor : Nat → α)
    (find : α → Nat → Option String) :
    sealCheckInPipeline v sealDataFor find = sealCheckInPipeline v2 sealDataFor find ∧
    (sealCheckInPipeline v sealDataFor find = .ok ()
      ↔ find (sealDataFor latestProtocolVersion) latestProtocolVersion = none) ∧
    (∀ reason, sealCheckInPipeline v sealDataFor find = .error (.Unexecutable reason)
      ↔ find (sealDataFor latestProtocolVersion) latestProtocolVersion = some reason) := by
  unfold sealCheckInPipeline ensureTxExecutable
  refine ⟨rfl, ?_, ?_⟩ <;>
    cases hf : find (sealDataFor latestProtocolVersion) latestProtocolVersion <;>
      simp [hf]

end ZkSyncCore
